import Mathlib

/-!
Verification development for pmixer (src/pmixer.c), a PulseAudio volume
control for the shell.  The program is embedded shallowly as pure Lean
functions over an environment record (`Env`) that plays the role of the
external audio server: it supplies the answers the asynchronous callbacks
would deliver.  Each C function that performs protocol work is embedded as
a function returning the list of observable events it emits (operation
handle creation/release, heap allocation/free, query and mutation calls,
error logs) together with its return value, so that resource-discipline
and call-count properties can be stated as properties of the trace.

The PulseAudio client library itself is not part of the repository; the
few library entities the claims need (volume constants and the per-channel
volume arithmetic) are modelled from the spec and marked as such.
-/

/- ## Connection state (pmixer.c:20-26) -/

/-- The global `state_t` of pmixer.c: CONNECTING, CONNECTED, ERROR. -/
inductive state_t where
  | CONNECTING : state_t
  | CONNECTED : state_t
  | ERROR : state_t
  deriving DecidableEq

/- The pa_context_state_t values of the PulseAudio headers, as the C enum
numerals (pulse/def.h).  Modelled as plain naturals so that a value outside
the enum (the `default:` case of state_cb) is representable. -/

def PA_CONTEXT_UNCONNECTED : Nat := 0

def PA_CONTEXT_CONNECTING : Nat := 1

def PA_CONTEXT_AUTHORIZING : Nat := 2

def PA_CONTEXT_SETTING_NAME : Nat := 3

def PA_CONTEXT_READY : Nat := 4

def PA_CONTEXT_FAILED : Nat := 5

def PA_CONTEXT_TERMINATED : Nat := 6

/-- state_cb (pmixer.c:40-61).  Takes the current global `state` and the
context state reported by `pa_context_get_state` and returns the new global
state together with a flag recording whether the `default:` branch fired
(`sentinel` logs "pa_context in unexpected state." and jumps to the
`error:` label, which merely returns: the global state is NOT modified on
that branch). -/
def state_cb (s : state_t) (ctx_state : Nat) : state_t × Bool :=
  if ctx_state = PA_CONTEXT_READY then (state_t.CONNECTED, false)
  else if ctx_state = PA_CONTEXT_FAILED then (state_t.ERROR, false)
  else if ctx_state = PA_CONTEXT_UNCONNECTED ∨ ctx_state = PA_CONTEXT_AUTHORIZING ∨
          ctx_state = PA_CONTEXT_SETTING_NAME ∨ ctx_state = PA_CONTEXT_CONNECTING ∨
          ctx_state = PA_CONTEXT_TERMINATED then (s, false)
  else (s, true)

/-- The evolution of the global `state` over a sequence of context-state
reports delivered to `state_cb` while main spins in
`while (state == CONNECTING) pa_mainloop_iterate(...)` (pmixer.c:239-241).
The loop keeps iterating as long as the folded state stays CONNECTING. -/
def drive_connect (reports : List Nat) : state_t :=
  reports.foldl (fun s n => (state_cb s n).1) state_t.CONNECTING

/- ## Sink records and the sink-info callback (pmixer.c:28-32, 63-72) -/

/-- One data record delivered by the device-info-by-name lookup: the fields
of `pa_sink_info` that sink_info_cb reads.  A `pa_cvolume` is an ordered
per-channel vector of `pa_volume_t` values, modelled as `List Nat`. -/
structure SinkRecord where
  index : Nat
  mute : Bool
  volume : List Nat
  deriving DecidableEq

/-- The `struct sink_info` output snapshot of pmixer.c:28-32. -/
structure sink_info where
  index : Nat
  mute : Bool
  volume : List Nat
  deriving DecidableEq

/-- sink_info_cb (pmixer.c:63-72): `if (eol != 0) return;` and otherwise
copy index/mute/volume from the record into the snapshot the output
pointer refers to.  `eol` is the C `int` end-of-list marker. -/
def sink_info_cb (slot : sink_info) (info : SinkRecord) (eol : Int) : sink_info :=
  if eol ≠ 0 then slot
  else { index := info.index, mute := info.mute, volume := info.volume }

/-- Stands for the NULL `info` pointer passed with the end-of-list
invocation; sink_info_cb returns before reading it when eol is nonzero, so
its fields are never inspected. -/
def nullRecord : SinkRecord := { index := 0, mute := false, volume := [] }

/-- The full sequence of sink_info_cb invocations during one
device-info-by-name operation: one invocation per data record (eol = 0),
then the final end-of-list invocation (eol = 1). -/
def sink_info_cb_run (slot : sink_info) (records : List SinkRecord) : sink_info :=
  sink_info_cb (records.foldl (fun s r => sink_info_cb s r 0) slot) nullRecord 1

/- ## Observable events of one run -/

/-- The error messages logged through the `check` / `sentinel` macros,
as abstract tags (the C format strings are noted alongside). -/
inductive ErrMsg where
  | outOfMemory : ErrMsg
  | unableGetSinkInfo (name : String) : ErrMsg
  | unableGetDefaultName : ErrMsg
  | unableGetDefaultInfo (name : String) : ErrMsg
  | cantConnect : ErrMsg
  | cantGetDefaultSink : ErrMsg
  | unexpectedState : ErrMsg
  deriving DecidableEq

/-- The observable events of a run: query/mutation protocol calls,
operation-handle lifecycle, heap traffic for callback output, error logs,
and the argp usage abort. -/
inductive Event where
  | callGetDefaultSink : Event
  | callGetSink (name : String) : Event
  | setVolume (index : Nat) (volume : List Nat) : Event
  | setMute (index : Nat) (mute : Bool) : Event
  | opCreate : Event
  | opIterate : Event
  | opUnref : Event
  | mallocSnapshot : Event
  | freeSnapshot : Event
  | strdupName : Event
  | freeName : Event
  | logErr (msg : ErrMsg) : Event
  | usageAbort : Event
  deriving DecidableEq

/-- Number of events in a trace satisfying a predicate. -/
def countEv (p : Event → Bool) (tr : List Event) : Nat := (tr.filter p).length

def isOpCreate : Event → Bool
  | Event.opCreate => true
  | _ => false

def isOpUnref : Event → Bool
  | Event.opUnref => true
  | _ => false

def isOpEvent : Event → Bool
  | Event.opCreate => true
  | Event.opIterate => true
  | Event.opUnref => true
  | _ => false

def isQueryCall : Event → Bool
  | Event.callGetDefaultSink => true
  | Event.callGetSink _ => true
  | _ => false

def isMutationCall : Event → Bool
  | Event.setVolume _ _ => true
  | Event.setMute _ _ => true
  | _ => false

def isSetVolume : Event → Bool
  | Event.setVolume _ _ => true
  | _ => false

def isSetMute : Event → Bool
  | Event.setMute _ _ => true
  | _ => false

def isMallocSnapshot : Event → Bool
  | Event.mallocSnapshot => true
  | _ => false

def isFreeSnapshot : Event → Bool
  | Event.freeSnapshot => true
  | _ => false

def isStrdupName : Event → Bool
  | Event.strdupName => true
  | _ => false

def isFreeName : Event → Bool
  | Event.freeName => true
  | _ => false

def isLogErrSinkInfo : Event → Bool
  | Event.logErr (ErrMsg.unableGetSinkInfo _) => true
  | _ => false

/- ## The environment: what the external audio server delivers -/

/-- The external-world oracle for one run.  `mainloopOk`, `apiOk` and
`contextOk` model the three `check_mem` checks of pmixer.c:229-233;
`connectResult` is the value of the global `state` at the moment main's
connection wait loop (pmixer.c:239-241) exits, so a returning run always
has `connectResult` different from CONNECTING; `mallocOk` models the
`malloc` of the snapshot in get_sink; `junk` is the (uninitialized)
content of that freshly malloc-ed snapshot; `serverName` is the name the
server-info callback delivers (`none` when the callback never ran, so the
output slot keeps its NULL initialization); `sinkRecords` are the data
records the device-info-by-name lookup delivers before its end-of-list
marker. -/
structure Env where
  mainloopOk : Bool
  apiOk : Bool
  contextOk : Bool
  connectResult : state_t
  mallocOk : Bool
  junk : sink_info
  serverName : Option String
  sinkRecords : List SinkRecord
  deriving DecidableEq

/-- server_info_cb (pmixer.c:74-78): copies (strdups) the reported default
sink name into the caller-owned output slot.  The argument is the delivered
report; `none` means the callback was never invoked and the slot keeps the
NULL it was initialized with. -/
def server_info_cb (report : Option String) : Option String := report

/- ## The query layer (pmixer.c:93-134) -/

/-- get_sink (pmixer.c:93-110).  The snapshot pointer is malloc-ed, the
device-info-by-name operation is issued, pumped (`iterate`) and unref-ed,
and then `check(sink_info, ...)` tests the POINTER.  sink_info_cb writes
through the pointer (`*(struct sink_info **)raw`) and never assigns the
pointer itself, so once malloc succeeded the pointer stays non-NULL no
matter how many records arrived; the modelled `ptr` is therefore
`some ...` on that path and the failure branch of the final check mirrors
the dead failure branch of the C code. -/
def get_sink (env : Env) (name : String) : List Event × Option sink_info :=
  match (if env.mallocOk then some env.junk else none) with
  | none =>
    ([Event.callGetSink name, Event.logErr ErrMsg.outOfMemory], none)
  | some slot =>
    let ptr : Option sink_info := some (sink_info_cb_run slot env.sinkRecords)
    let tr := [Event.callGetSink name, Event.mallocSnapshot,
               Event.opCreate, Event.opIterate, Event.opUnref]
    match ptr with
    | some s => (tr, some s)
    | none =>
      (tr ++ [Event.logErr (ErrMsg.unableGetSinkInfo name), Event.freeSnapshot], none)

/-- get_default_sink (pmixer.c:112-134): server-info operation (create,
pump — during which server_info_cb may strdup the name — unref), then the
`check(sink_name, ...)`; on success, get_sink by that name, then
`check(sink, ...)`; `free(sink_name)` on the success path, and on the
`error:` path `free` of whichever of sink_name/sink is non-NULL. -/
def get_default_sink (env : Env) : List Event × Option sink_info :=
  match server_info_cb env.serverName with
  | none =>
    ([Event.callGetDefaultSink, Event.opCreate, Event.opIterate, Event.opUnref,
      Event.logErr ErrMsg.unableGetDefaultName], none)
  | some name =>
    let serverTr := [Event.callGetDefaultSink, Event.opCreate, Event.strdupName,
                     Event.opIterate, Event.opUnref]
    match get_sink env name with
    | (tr, some s) => (serverTr ++ tr ++ [Event.freeName], some s)
    | (tr, none) =>
      (serverTr ++ tr ++ [Event.logErr (ErrMsg.unableGetDefaultInfo name),
                          Event.freeName], none)

/- ## The mutation layer (pmixer.c:136-150) -/

/-- set_volume (pmixer.c:136-142): issue the set-sink-volume-by-index
request (which yields the operation handle), pump it, unref it.  The
completion success flag goes to success_cb (pmixer.c:80-82), which
discards it. -/
def set_volume (index : Nat) (new_volume : List Nat) : List Event :=
  [Event.setVolume index new_volume, Event.opCreate, Event.opIterate, Event.opUnref]

/-- set_mute (pmixer.c:144-150): issue the set-sink-mute-by-index request,
pump it, unref it. -/
def set_mute (index : Nat) (mute : Bool) : List Event :=
  [Event.setMute index mute, Event.opCreate, Event.opIterate, Event.opUnref]

/- ## PulseAudio volume arithmetic (library, not in this repository) -/

/-- Modelled from the spec: the "normal" (100%) reference level of the
volume domain, `PA_VOLUME_NORM` of the PulseAudio headers (0x10000). -/
def PA_VOLUME_NORM : Nat := 65536

/-- Modelled from the spec: the "UI max" reference level, `PA_VOLUME_UI_MAX`
of the PulseAudio headers; the spec scenario fixes it at 1.50 times the
normal level. -/
def PA_VOLUME_UI_MAX : Nat := 3 * PA_VOLUME_NORM / 2

/-- Modelled from the spec: `pa_cvolume_inc_clamp` — "compute a new
per-channel volume vector by adding a fixed step to each channel of the
snapshot volume, clamped at a fixed upper ceiling". -/
def pa_cvolume_inc_clamp (v : List Nat) (inc limit : Nat) : List Nat :=
  v.map (fun x => min (x + inc) limit)

/-- Modelled from the spec: `pa_cvolume_dec` — "compute a new vector by
subtracting the same fixed step per channel, with no explicit floor other
than the vector own underlying numeric floor (zero)".  Truncated `Nat`
subtraction is exactly max(old - step, 0). -/
def pa_cvolume_dec (v : List Nat) (dec : Nat) : List Nat :=
  v.map (fun x => x - dec)

/- ## Commands and the argp surface (pmixer.c:152-218) -/

/-- The `enum commands` of pmixer.c:165-170. -/
inductive commands where
  | CMD_NOP : commands
  | CMD_INC : commands
  | CMD_DEC : commands
  | CMD_MUTE : commands
  deriving DecidableEq

/-- One entry of `struct cmd_map` (pmixer.c:172-175). -/
structure cmd_map_entry where
  cmd : commands
  text : String
  deriving DecidableEq

/-- The cmd_map table (pmixer.c:177-182).  The terminating `{ 0 }` entry
(cmd = CMD_NOP) stops the lookup loop in parse_opt and is represented by
the end of the list. -/
def cmd_map : List cmd_map_entry :=
  [{ cmd := commands.CMD_INC, text := "inc" },
   { cmd := commands.CMD_DEC, text := "dec" },
   { cmd := commands.CMD_MUTE, text := "mute" }]

/-- The `struct arguments` of pmixer.c:184-187.  In C both fields are
indeterminate at declaration (main never initializes the struct); a field
that has not been assigned is modelled as `none`. -/
structure arguments where
  command : Option commands
  verbose : Option Int
  deriving DecidableEq

/-- The declared-but-uninitialized `struct arguments` in main
(pmixer.c:223): no field has been assigned. -/
def arguments_init : arguments := { command := none, verbose := none }

/-- The keys argp feeds to parse_opt: the verbose option, one positional
argument, and the end-of-parsing key. -/
inductive argp_key where
  | key_v : argp_key
  | key_arg (arg : String) : argp_key
  | key_end : argp_key
  deriving DecidableEq

/-- parse_opt (pmixer.c:189-216), one invocation.  Returns `none` when
`argp_usage` is invoked (which aborts parsing), otherwise the updated
arguments and positional count.  For a positional argument the cmd_map
loop assigns `arguments->command` on the first strcmp match and leaves the
field untouched when no entry matches. -/
def parse_opt (args : arguments) (arg_num : Nat) : argp_key → Option (arguments × Nat)
  | argp_key.key_v => some ({ args with verbose := some 1 }, arg_num)
  | argp_key.key_arg arg =>
    if 1 ≤ arg_num then none
    else
      some ({ args with
                command := match cmd_map.find? (fun e => e.text == arg) with
                  | some e => some e.cmd
                  | none => args.command },
            arg_num + 1)
  | argp_key.key_end => if arg_num < 1 then none else some (args, arg_num)

/-- A command-line token: the `-v` flag or a positional argument. -/
inductive ArgTok where
  | flag_v : ArgTok
  | positional (s : String) : ArgTok
  deriving DecidableEq

def ArgTok.toKey : ArgTok → argp_key
  | ArgTok.flag_v => argp_key.key_v
  | ArgTok.positional s => argp_key.key_arg s

/-- The argp driver: feeds each token to parse_opt in order, threading the
positional count, then delivers ARGP_KEY_END.  `none` means argp_usage
aborted the parse. -/
def argp_drive : arguments → Nat → List ArgTok → Option arguments
  | args, n, [] =>
    match parse_opt args n argp_key.key_end with
    | none => none
    | some (a, _) => some a
  | args, n, t :: ts =>
    match parse_opt args n t.toKey with
    | none => none
    | some (a, n2) => argp_drive a n2 ts

/-- argp_parse as invoked by main (pmixer.c:227), starting from the
uninitialized arguments struct. -/
def argp_parse (toks : List ArgTok) : Option arguments :=
  argp_drive arguments_init 0 toks

/- ## The command switch and main (pmixer.c:220-275) -/

/-- The command switch of main (pmixer.c:247-257).  CMD_NOP matches no
case and falls through without any call. -/
def run_command (cmd : commands) (info : sink_info) : List Event :=
  match cmd with
  | commands.CMD_NOP => []
  | commands.CMD_INC =>
    set_volume info.index (pa_cvolume_inc_clamp info.volume (PA_VOLUME_NORM / 20) PA_VOLUME_UI_MAX)
  | commands.CMD_DEC =>
    set_volume info.index (pa_cvolume_dec info.volume (PA_VOLUME_NORM / 20))
  | commands.CMD_MUTE => set_mute info.index (!info.mute)

/-- main (pmixer.c:220-275); named pmixer_main because Lean reserves the
name `main` for an executable entry point.  Returns the event trace and the
process exit code.  When argp_usage fires, argp terminates the process with its default
error exit status (nonzero; 64 on glibc).  The teardown calls
(pa_context_disconnect, pa_context_unref, pa_mainloop_free) emit no
modelled events since no claim concerns them.  When `arguments.command`
was never assigned the C switch reads an indeterminate value; the model
takes no case (see the C10 development below) — no confirmed claim depends
on this branch.  A run whose wait loop never exits (state still CONNECTING
forever) never returns; theorems over connection outcomes therefore
hypothesize a terminal `connectResult`. -/
def pmixer_main (env : Env) (toks : List ArgTok) : List Event × Int :=
  match argp_parse toks with
  | none => ([Event.usageAbort], 64)
  | some arguments =>
    if env.mainloopOk = false then ([Event.logErr ErrMsg.outOfMemory], -1)
    else if env.apiOk = false then ([Event.logErr ErrMsg.outOfMemory], -1)
    else if env.contextOk = false then ([Event.logErr ErrMsg.outOfMemory], -1)
    else if env.connectResult = state_t.CONNECTED then
      match get_default_sink env with
      | (tr, some info) =>
        let mutTr :=
          match arguments.command with
          | some cmd => run_command cmd info
          | none => []
        (tr ++ mutTr, 0)
      | (tr, none) => (tr ++ [Event.logErr ErrMsg.cantGetDefaultSink], -1)
    else ([Event.logErr ErrMsg.cantConnect], -1)

/- ## Concrete environments for evaluation -/

/-- A well-behaved server: one sink record, a resolvable default name. -/
def goodRecord : SinkRecord := { index := 5, mute := false, volume := [32768] }

/-- A fully successful environment. -/
def envOk : Env :=
  { mainloopOk := true, apiOk := true, contextOk := true,
    connectResult := state_t.CONNECTED, mallocOk := true,
    junk := { index := 77, mute := true, volume := [12345] },
    serverName := some "alsa_output", sinkRecords := [goodRecord] }

/-- Like envOk but the device-info-by-name lookup delivers zero data
records: the callback is only invoked with the end-of-list marker. -/
def envZeroRecords : Env := { envOk with sinkRecords := [] }

/-- Like envOk but the connection reaches the failed state. -/
def envFailed : Env := { envOk with connectResult := state_t.ERROR }

/- ## Claim theorems -/

/-- Claim C1: for every snapshot, the Increase command calls setVolume
exactly once with a vector of the same channel count whose entries are
min(old + PA_VOLUME_NORM/20, PA_VOLUME_UI_MAX), and the Decrease command
calls setVolume exactly once with entries old - PA_VOLUME_NORM/20, where
the truncated Nat subtraction coincides with max(old - step, 0) over the
integers. -/
theorem c1_inc_dec_per_channel (s : sink_info) :
    run_command commands.CMD_INC s =
      [Event.setVolume s.index
        (s.volume.map (fun x => min (x + PA_VOLUME_NORM / 20) PA_VOLUME_UI_MAX)),
       Event.opCreate, Event.opIterate, Event.opUnref] ∧
    run_command commands.CMD_DEC s =
      [Event.setVolume s.index (s.volume.map (fun x => x - PA_VOLUME_NORM / 20)),
       Event.opCreate, Event.opIterate, Event.opUnref] ∧
    countEv isSetVolume (run_command commands.CMD_INC s) = 1 ∧
    countEv isSetVolume (run_command commands.CMD_DEC s) = 1 ∧
    (s.volume.map (fun x => min (x + PA_VOLUME_NORM / 20) PA_VOLUME_UI_MAX)).length
      = s.volume.length ∧
    (s.volume.map (fun x => x - PA_VOLUME_NORM / 20)).length = s.volume.length ∧
    (∀ x : Nat,
      ((x - PA_VOLUME_NORM / 20 : Nat) : Int)
        = max ((x : Int) - ((PA_VOLUME_NORM / 20 : Nat) : Int)) 0) := by
  refine ⟨rfl, rfl, rfl, rfl, by simp, by simp, ?_⟩
  intro x
  omega

/-- Counterexample for claim C2 as stated, at the concrete environment
where the device-info-by-name lookup delivers zero data records (the
callback is invoked only with the end-of-list marker): every part of the
claimed consequent is false there — get_sink does not return the
empty/null result, no resolution error is logged, a mutation call does
occur, and the process exit code is 0. -/
theorem c2_counterexample :
    (get_sink envZeroRecords "alsa_output").2 ≠ none ∧
    countEv isLogErrSinkInfo (get_sink envZeroRecords "alsa_output").1 = 0 ∧
    countEv isMutationCall (pmixer_main envZeroRecords [ArgTok.positional "mute"]).1 ≠ 0 ∧
    (pmixer_main envZeroRecords [ArgTok.positional "mute"]).2 = 0 := by
  decide

/-- Claim C2 as amended: whenever the snapshot malloc succeeded and the
device-info-by-name lookup delivers zero data records, get_sink does not
fail — sink_info_cb writes through the caller pointer and never assigns
the pointer itself, so the final check (pmixer.c:102) passes and get_sink
returns the still-uninitialized snapshot, with no resolution error
logged. -/
theorem c2_zero_records_sink_still_returned (env : Env) (name : String)
    (hm : env.mallocOk = true) (hr : env.sinkRecords = []) :
    (get_sink env name).2 = some env.junk ∧
    countEv isLogErrSinkInfo (get_sink env name).1 = 0 := by
  constructor
  · simp [get_sink, hm, hr, sink_info_cb_run, sink_info_cb]
  · simp [get_sink, hm, countEv, List.filter_cons, isLogErrSinkInfo]

/-- Witness for c2_zero_records_sink_still_returned at the concrete
zero-records environment. -/
theorem c2_zero_records_sink_still_returned_witness :
    (get_sink envZeroRecords "alsa_output").2 = some envZeroRecords.junk ∧
    countEv isLogErrSinkInfo (get_sink envZeroRecords "alsa_output").1 = 0 :=
  c2_zero_records_sink_still_returned envZeroRecords "alsa_output" rfl rfl

/-- Claim C4 fails on the code: when state_cb sees the out-of-enum context
state 99 it logs the unexpected-state error but leaves the global state
untouched, so a wait loop that was spinning on CONNECTING keeps spinning
instead of aborting. -/
theorem c4_unexpected_state_leaves_loop_spinning :
    state_cb state_t.CONNECTING 99 = (state_t.CONNECTING, true) ∧
    drive_connect [99] = state_t.CONNECTING ∧
    (∀ s : state_t, (state_cb s 99).1 = s) := by
  refine ⟨by decide, by decide, ?_⟩
  intro s
  cases s <;> rfl

/-- Claim C5: the Mute command calls setMute exactly once with the logical
negation of the snapshot mute flag, issues no setVolume, the argument is
independent of the volume vector, and negating twice returns the flag to
its original value. -/
theorem c5_mute_toggle (s : sink_info) (v2 : List Nat) :
    run_command commands.CMD_MUTE s =
      [Event.setMute s.index (!s.mute), Event.opCreate, Event.opIterate, Event.opUnref] ∧
    countEv isSetMute (run_command commands.CMD_MUTE s) = 1 ∧
    countEv isSetVolume (run_command commands.CMD_MUTE s) = 0 ∧
    run_command commands.CMD_MUTE { index := s.index, mute := !s.mute, volume := v2 } =
      [Event.setMute s.index (!(!s.mute)), Event.opCreate, Event.opIterate, Event.opUnref] ∧
    (!(!s.mute)) = s.mute := by
  exact ⟨rfl, rfl, rfl, rfl, Bool.not_not _⟩

/-- Claim C7 fails on the code: on the fully successful run the strdup-ed
default sink name is freed, but the malloc-ed sink_info snapshot is never
freed (main returns 0 without free(info); only the error path frees it). -/
theorem c7_snapshot_leaked_on_success :
    countEv isMallocSnapshot (pmixer_main envOk [ArgTok.positional "inc"]).1 = 1 ∧
    countEv isFreeSnapshot (pmixer_main envOk [ArgTok.positional "inc"]).1 = 0 ∧
    countEv isStrdupName (pmixer_main envOk [ArgTok.positional "inc"]).1 = 1 ∧
    countEv isFreeName (pmixer_main envOk [ArgTok.positional "inc"]).1 = 1 ∧
    (pmixer_main envOk [ArgTok.positional "inc"]).2 = 0 := by
  decide

/-- Claim C8: an invocation of sink_info_cb with a nonzero end-of-list
marker returns the output snapshot unchanged, and only invocations with
end-of-list 0 write the index/mute/volume fields. -/
theorem c8_eol_frame (slot : sink_info) (info : SinkRecord) (eol : Int) :
    (eol ≠ 0 → sink_info_cb slot info eol = slot) ∧
    (eol = 0 → sink_info_cb slot info eol =
      { index := info.index, mute := info.mute, volume := info.volume }) := by
  constructor
  · intro h
    simp [sink_info_cb, h]
  · intro h
    simp [sink_info_cb, h]

/-- Witness for c8_eol_frame at a concrete snapshot, record and eol = 1. -/
theorem c8_eol_frame_witness :
    sink_info_cb { index := 1, mute := false, volume := [2] }
        { index := 9, mute := true, volume := [7] } 1 =
      { index := 1, mute := false, volume := [2] } :=
  (c8_eol_frame { index := 1, mute := false, volume := [2] }
    { index := 9, mute := true, volume := [7] } 1).1 (by decide)

/-- Claim C9 fails on the code: a missing positional argument and a second
positional argument do invoke the usage abort, and the three known
commands parse, but an unrecognized single positional argument such as
"bogus" is accepted silently with the command field left unassigned. -/
theorem c9_parser_accepts_unrecognized :
    argp_parse [] = none ∧
    argp_parse [ArgTok.positional "inc"]
      = some { command := some commands.CMD_INC, verbose := none } ∧
    argp_parse [ArgTok.positional "dec"]
      = some { command := some commands.CMD_DEC, verbose := none } ∧
    argp_parse [ArgTok.positional "mute"]
      = some { command := some commands.CMD_MUTE, verbose := none } ∧
    argp_parse [ArgTok.positional "inc", ArgTok.positional "dec"] = none ∧
    argp_parse [ArgTok.positional "bogus"] = some { command := none, verbose := none } := by
  decide

/-- Counterexample for claim C10 as stated: there is an accepted parse (the
single positional "bogus") after which the command field has never been
assigned, so the field is NOT assigned on every execution path that
reaches the command switch. -/
theorem c10_counterexample :
    ∃ args : arguments,
      argp_parse [ArgTok.positional "bogus"] = some args ∧ args.command = none :=
  ⟨{ command := none, verbose := none }, by decide, rfl⟩

/-- Claim C10 as amended: the arguments struct starts with no field
assigned, and for any accepted positional argument other than inc, dec and
mute, parsing succeeds with the command field still unassigned — so main
reads an unassigned command in its switch on that path. -/
theorem c10_unassigned_command (a : String)
    (h1 : a ≠ "inc") (h2 : a ≠ "dec") (h3 : a ≠ "mute") :
    arguments_init.command = none ∧
    argp_parse [ArgTok.positional a] = some { command := none, verbose := none } := by
  have e1 : (("inc" : String) == a) = false := beq_eq_false_iff_ne.mpr (Ne.symm h1)
  have e2 : (("dec" : String) == a) = false := beq_eq_false_iff_ne.mpr (Ne.symm h2)
  have e3 : (("mute" : String) == a) = false := beq_eq_false_iff_ne.mpr (Ne.symm h3)
  refine ⟨rfl, ?_⟩
  simp [argp_parse, argp_drive, parse_opt, ArgTok.toKey, cmd_map, List.find?,
        e1, e2, e3, arguments_init]

/-- Witness for c10_unassigned_command at the concrete argument "bogus". -/
theorem c10_unassigned_command_witness :
    arguments_init.command = none ∧
    argp_parse [ArgTok.positional "bogus"] = some { command := none, verbose := none } :=
  c10_unassigned_command "bogus" (by decide) (by decide) (by decide)

/- ## Operation-handle discipline (machinery for claim C6) -/

/-- Concatenation of k create-iterate-unref blocks: the operation-event
footprint of k completed protocol operations. -/
def opsBlocks : Nat → List Event
  | 0 => []
  | k + 1 => Event.opCreate :: Event.opIterate :: Event.opUnref :: opsBlocks k

theorem opsBlocks_add (m n : Nat) : opsBlocks (m + n) = opsBlocks m ++ opsBlocks n := by
  induction m with
  | zero => simp [opsBlocks]
  | succ k ih => simp [opsBlocks, Nat.succ_add, ih]

/-- A trace whose operation events form whole create-iterate-unref blocks:
every created handle was pumped and then released exactly once. -/
def opsShape (tr : List Event) : Prop :=
  ∃ k, tr.filter isOpEvent = opsBlocks k

theorem opsShape_append {a b : List Event} (ha : opsShape a) (hb : opsShape b) :
    opsShape (a ++ b) := by
  obtain ⟨k1, hh1⟩ := ha
  obtain ⟨k2, hh2⟩ := hb
  exact ⟨k1 + k2, by rw [List.filter_append, hh1, hh2, opsBlocks_add]⟩

theorem get_sink_opsShape (env : Env) (name : String) : opsShape (get_sink env name).1 := by
  unfold get_sink
  cases hm : env.mallocOk with
  | false => exact ⟨0, rfl⟩
  | true => exact ⟨1, rfl⟩

theorem get_default_sink_opsShape (env : Env) : opsShape (get_default_sink env).1 := by
  cases hs : env.serverName with
  | none => exact ⟨1, by simp [get_default_sink, server_info_cb, hs, isOpEvent, opsBlocks]⟩
  | some name =>
    have hg1 := get_sink_opsShape env name
    rcases hg : get_sink env name with ⟨tr, res⟩
    rw [hg] at hg1
    cases res with
    | some s =>
      have he : (get_default_sink env).1 =
          [Event.callGetDefaultSink, Event.opCreate, Event.strdupName,
           Event.opIterate, Event.opUnref] ++ tr ++ [Event.freeName] := by
        simp [get_default_sink, server_info_cb, hs, hg]
      rw [he]
      exact opsShape_append (opsShape_append ⟨1, rfl⟩ hg1) ⟨0, rfl⟩
    | none =>
      have he : (get_default_sink env).1 =
          [Event.callGetDefaultSink, Event.opCreate, Event.strdupName,
           Event.opIterate, Event.opUnref] ++ tr ++
            [Event.logErr (ErrMsg.unableGetDefaultInfo name), Event.freeName] := by
        simp [get_default_sink, server_info_cb, hs, hg]
      rw [he]
      exact opsShape_append (opsShape_append ⟨1, rfl⟩ hg1) ⟨0, rfl⟩

theorem run_command_opsShape (cmd : commands) (info : sink_info) :
    opsShape (run_command cmd info) := by
  cases cmd with
  | CMD_NOP => exact ⟨0, rfl⟩
  | CMD_INC => exact ⟨1, rfl⟩
  | CMD_DEC => exact ⟨1, rfl⟩
  | CMD_MUTE => exact ⟨1, rfl⟩

theorem pmixer_main_opsShape (env : Env) (toks : List ArgTok) :
    opsShape (pmixer_main env toks).1 := by
  cases hp : argp_parse toks with
  | none => exact ⟨0, by simp [pmixer_main, hp, isOpEvent, opsBlocks]⟩
  | some args =>
    cases hml : env.mainloopOk with
    | false => exact ⟨0, by simp [pmixer_main, hp, hml, isOpEvent, opsBlocks]⟩
    | true =>
      cases hapi : env.apiOk with
      | false => exact ⟨0, by simp [pmixer_main, hp, hml, hapi, isOpEvent, opsBlocks]⟩
      | true =>
        cases hctx : env.contextOk with
        | false => exact ⟨0, by simp [pmixer_main, hp, hml, hapi, hctx, isOpEvent, opsBlocks]⟩
        | true =>
          cases hcc : env.connectResult with
          | CONNECTING =>
            exact ⟨0, by simp [pmixer_main, hp, hml, hapi, hctx, hcc, isOpEvent, opsBlocks]⟩
          | ERROR =>
            exact ⟨0, by simp [pmixer_main, hp, hml, hapi, hctx, hcc, isOpEvent, opsBlocks]⟩
          | CONNECTED =>
            have hds := get_default_sink_opsShape env
            rcases hg : get_default_sink env with ⟨tr, res⟩
            rw [hg] at hds
            cases res with
            | some info =>
              cases hc : args.command with
              | none =>
                have he : (pmixer_main env toks).1 = tr := by
                  simp [pmixer_main, hp, hml, hapi, hctx, hcc, hg, hc]
                rw [he]
                exact hds
              | some cmd =>
                have he : (pmixer_main env toks).1 = tr ++ run_command cmd info := by
                  simp [pmixer_main, hp, hml, hapi, hctx, hcc, hg, hc]
                rw [he]
                exact opsShape_append hds (run_command_opsShape cmd info)
            | none =>
              have he : (pmixer_main env toks).1 =
                  tr ++ [Event.logErr ErrMsg.cantGetDefaultSink] := by
                simp [pmixer_main, hp, hml, hapi, hctx, hcc, hg]
              rw [he]
              exact opsShape_append hds ⟨0, rfl⟩

theorem length_filter_opsBlocks (k : Nat) :
    ((opsBlocks k).filter isOpCreate).length = k ∧
    ((opsBlocks k).filter isOpUnref).length = k := by
  induction k with
  | zero => exact ⟨rfl, rfl⟩
  | succ n ih =>
    constructor
    · show (List.filter isOpCreate
        (Event.opCreate :: Event.opIterate :: Event.opUnref :: opsBlocks n)).length = n + 1
      simp [List.filter_cons, isOpCreate, ih.1]
    · show (List.filter isOpUnref
        (Event.opCreate :: Event.opIterate :: Event.opUnref :: opsBlocks n)).length = n + 1
      simp [List.filter_cons, isOpUnref, ih.2]

theorem filter_opCreate_comm (tr : List Event) :
    tr.filter isOpCreate = (tr.filter isOpEvent).filter isOpCreate := by
  induction tr with
  | nil => rfl
  | cons e rest ih => cases e <;> simp [List.filter_cons, isOpCreate, isOpEvent, ih]

theorem filter_opUnref_comm (tr : List Event) :
    tr.filter isOpUnref = (tr.filter isOpEvent).filter isOpUnref := by
  induction tr with
  | nil => rfl
  | cons e rest ih => cases e <;> simp [List.filter_cons, isOpUnref, isOpEvent, ih]

/-- Claim C3: in every returning run whose connection terminal state is not
CONNECTED, the program issues zero query calls and zero mutation calls and
exits with a nonzero code. -/
theorem c3_no_calls_when_not_connected (env : Env) (toks : List ArgTok)
    (h1 : env.connectResult ≠ state_t.CONNECTED)
    (h2 : env.connectResult ≠ state_t.CONNECTING) :
    countEv isQueryCall (pmixer_main env toks).1 = 0 ∧
    countEv isMutationCall (pmixer_main env toks).1 = 0 ∧
    (pmixer_main env toks).2 ≠ 0 := by
  unfold pmixer_main
  repeat' split
  all_goals first
    | exact absurd (by assumption) h1
    | exact ⟨rfl, rfl, by decide⟩

/-- Witness for c3_no_calls_when_not_connected: connection reaches the
failed state, the mute command was requested. -/
theorem c3_no_calls_when_not_connected_witness :
    countEv isQueryCall (pmixer_main envFailed [ArgTok.positional "mute"]).1 = 0 ∧
    countEv isMutationCall (pmixer_main envFailed [ArgTok.positional "mute"]).1 = 0 ∧
    (pmixer_main envFailed [ArgTok.positional "mute"]).2 ≠ 0 :=
  c3_no_calls_when_not_connected envFailed [ArgTok.positional "mute"]
    (by decide) (by decide)

/-- Claim C6: in every run, operation-handle creations and releases are in
one-to-one correspondence: the operation events of the trace are whole
create-iterate-unref blocks, and the number of creations equals the number
of releases. -/
theorem c6_op_handles_balanced (env : Env) (toks : List ArgTok) :
    countEv isOpCreate (pmixer_main env toks).1 = countEv isOpUnref (pmixer_main env toks).1 ∧
    ∃ k, (pmixer_main env toks).1.filter isOpEvent = opsBlocks k ∧
      countEv isOpCreate (pmixer_main env toks).1 = k ∧
      countEv isOpUnref (pmixer_main env toks).1 = k := by
  obtain ⟨k, hk⟩ := pmixer_main_opsShape env toks
  have hc : countEv isOpCreate (pmixer_main env toks).1 = k := by
    rw [countEv, filter_opCreate_comm, hk]
    exact (length_filter_opsBlocks k).1
  have hu : countEv isOpUnref (pmixer_main env toks).1 = k := by
    rw [countEv, filter_opUnref_comm, hk]
    exact (length_filter_opsBlocks k).2
  exact ⟨hc.trans hu.symm, k, hk, hc, hu⟩
